import Mathlib

/-!
Verification development for the dialog-entry prioritization subsystem of
`src/Telegram/SourceFiles/dialogs/dialogs_entry.cpp` (namespace `Dialogs`).

The C++ code is shallowly embedded: machine `uint64` arithmetic is `Nat`
with explicit `% 2 ^ 64`, `TimeId`/`int` values are `Int`, the global
monotonic counter `DialogsPosToTopShift` and the event emissions to the
UI collaborator are threaded through an explicit `World` state, and the
mutually recursive recompute/notify cycle
(`calculateChatListSortPosition` / `setChatListExistence` /
`updateChatListEntry`) is modelled with an explicit fuel parameter
(`none` = fuel exhausted; the recursion depth of the real code is
bounded, and all theorems below hold with any sufficient fuel).
-/

namespace Dialogs

/-- `const uint64 OLD_MESSAGE = 604800; // 1 week` (dialogs_entry.cpp:39). -/
def OLD_MESSAGE : Nat := 604800

/-- Modulus of the C++ `uint64` type. -/
def U64 : Nat := 2 ^ 64

/-- Conversion of a C++ signed value to `uint64` (modular, sign wraps). -/
def toUInt64Nat (i : Int) : Nat := (i % (2 ^ 64 : Int)).toNat

/-- Wrap an integer to the range of a 32-bit signed `int`, as C++ `int`
arithmetic does on the common ILP32/LP64 platforms the code targets. -/
def wrap32 (i : Int) : Int := (i + 2 ^ 31) % 2 ^ 32 - 2 ^ 31

/-- Modelled from the spec: the `EntryCategory` enumeration is declared in
`dialogs_entry.h`, which is not part of the sources.  The constructors and
their precedence order come from spec §3; the numeric values are fixed by
the key-range comment at dialogs_entry.cpp:54-65 (`UNMUTED_UNREAD` keys
start at `0xD...`, `UNMUTED_READ_YOUNG` at `0xC...`, `MUTED` at `0xB...`,
`UNMUTED_READ_OLD` at `0xA...`; the value is shifted left by 60, so the
enum values are 13, 12, 11, 10).  `SOFT_PINNED` must land above
`UNMUTED_UNREAD` and below the pinned range, hence 14; `BOTTOM` is the
lowest tier, hence 9. -/
inductive EntryCategory where
  | SOFT_PINNED
  | UNMUTED_UNREAD
  | UNMUTED_READ_YOUNG
  | MUTED
  | UNMUTED_READ_OLD
  | BOTTOM
deriving DecidableEq

/-- Numeric value of the category used by the `<< 60` encoding. -/
def EntryCategory.val : EntryCategory → Nat
  | .SOFT_PINNED => 14
  | .UNMUTED_UNREAD => 13
  | .UNMUTED_READ_YOUNG => 12
  | .MUTED => 11
  | .UNMUTED_READ_OLD => 10
  | .BOTTOM => 9

/-- `DialogPosFromDate` (dialogs_entry.cpp:47-52).  The global counter
`DialogsPosToTopShift` is threaded explicitly: the function returns the
key together with the new counter value.  `++DialogsPosToTopShift` is a
pre-increment, so the ORed disambiguator is the incremented value. -/
def DialogPosFromDate (date : Int) (shift : Nat) : Nat × Nat :=
  if date = 0 then (0, shift)
  else
    let sh := shift + 1
    ((((toUInt64Nat date) <<< 32) % U64) ||| (sh % U64), sh)

/-- `DialogPosFromDateAndCategory` (dialogs_entry.cpp:66-71):
`((uint64(category) << 60) + (uint64(date) << 28)) | (++DialogsPosToTopShift)`. -/
def DialogPosFromDateAndCategory (date : Int) (category : EntryCategory)
    (shift : Nat) : Nat × Nat :=
  if date = 0 then (0, shift)
  else
    let sh := shift + 1
    (((category.val <<< 60 + (toUInt64Nat date) <<< 28) % U64) ||| (sh % U64), sh)

/-- `FixedOnTopDialogPos` (dialogs_entry.cpp:73-75):
`0xFFFFFFFFFFFF000FULL - index`, with `uint64` (modular) subtraction. -/
def FixedOnTopDialogPos (index : Nat) : Nat :=
  (0xFFFFFFFFFFFF000F + U64 - index % U64) % U64

/-- `PinnedDialogPos` (dialogs_entry.cpp:77-79):
`0xFFFFFFFF000000FFULL - pinnedIndex`, with `uint64` (modular) subtraction. -/
def PinnedDialogPos (pinnedIndex : Nat) : Nat :=
  (0xFFFFFFFF000000FF + U64 - pinnedIndex % U64) % U64

/-- The two chat-list modes indexing `_chatListLinks`. -/
inductive Mode where
  | All
  | Important
deriving DecidableEq

/-- Effects the entry pushes across to the owning collaborators:
`Data::Session::unreadEntryChanged(key, added)` from
`addToChatList`/`removeFromChatList`, and `MainWidget::refreshDialog`,
`MainWidget::removeDialog`, `MainWidget::repaintDialogRow` from
`setChatListExistence`/`updateChatListEntry`. -/
inductive Event where
  | unreadEntryChanged (added : Bool)
  | refreshDialog
  | removeDialog
  | repaintRow (m : Mode)
deriving DecidableEq

/-- `RowsByLetter`: the per-letter map from `QChar` (as `Nat`; `0` is the
sentinel for the unfiltered main row) to the `Row` handle.  Rows are
modelled by the entry key they point back to. -/
def RowsByLetter := List (Nat × Nat)
deriving DecidableEq

/-- The `Entry` fields touched by this translation unit.  The
double-underscore members (`__messageCategory`, `__unreadMention`,
`__muted`, `__unreadCount`, `__updateNeeded`) are the cached priority
state; `_timeId`, `_pinnedIndex`, `_sortKeyInChatList` and
`_chatListLinks` are the remaining data members.  `fixedOnTopIndex` is
the virtual slot accessor (0 = not fixed on top). -/
structure EntryState where
  keyId : Nat
  timeId : Int
  pinnedIndex : Int
  fixedOnTopIndex : Nat
  messageCategory : EntryCategory
  unreadMention : Bool
  muted : Bool
  unreadCount : Int
  updateNeeded : Bool
  sortKeyInChatList : Nat
  linksAll : RowsByLetter
  linksImportant : RowsByLetter
deriving DecidableEq

/-- The read-only collaborators consulted during a recompute: the
history (`lastMessageKnown` stands for
`_key.history() != nullptr && history->lastMessageKnown()`), the unread
state accessors, `base::unixtime::now()`, the published soft-pin set,
the virtual `shouldBeInChatList()`, and the first letter of the display
name used by the letter buckets. -/
structure LiveEnv where
  lastMessageKnown : Bool
  histMuted : Bool
  histUnreadMention : Bool
  peerId : Nat
  chatListUnreadCount : Int
  chatListUnreadMark : Bool
  now : Int
  softPins : List Nat
  shouldBeInChatList : Bool
  firstLetter : Nat
deriving DecidableEq

/-- `Entry::chatListLinks(Mode)` (dialogs_entry.cpp:262-268). -/
def chatListLinks (s : EntryState) : Mode → RowsByLetter
  | .All => s.linksAll
  | .Important => s.linksImportant

/-- Write access to `_chatListLinks[mode]`. -/
def setLinks (s : EntryState) : Mode → RowsByLetter → EntryState
  | .All, v => { s with linksAll := v }
  | .Important, v => { s with linksImportant := v }

/-- `links.find(letter)` on a `RowsByLetter` map. -/
def lookupLetter (letter : Nat) : RowsByLetter → Option Nat
  | [] => none
  | (l, r) :: rest => if l = letter then some r else lookupLetter letter rest

/-- Modelled from the spec: `isInList(mode)` / `Entry::inChatList`, whose
body lives in `dialogs_entry.h` (not under the sources): membership in a
mode is having a nonempty `RowsByLetter` for it. -/
def inChatList (s : EntryState) (m : Mode) : Bool :=
  !(chatListLinks s m).isEmpty

/-- Modelled from the spec: `Entry::isPinnedDialog` lives in
`dialogs_entry.h`; `pinnedIndex` is "optional int" and a positive index
means pinned. -/
def isPinnedDialog (s : EntryState) : Bool :=
  decide (0 < s.pinnedIndex)

/-- `Entry::mainChatListLink` (dialogs_entry.cpp:270-275): looks up the
letter-0 row and `Assert`s it is present.  The assertion failure is
modelled as `none`. -/
def mainChatListLink (s : EntryState) (m : Mode) : Option Nat :=
  lookupLetter 0 (chatListLinks s m)

/-- `Entry::updatePriority` (dialogs_entry.cpp:186-234).  Faithful to the
source: the locals `muted` / `unreadMention` / `unreadCount` are read
from the live state, but the classification cascade tests the OLD cached
members `__unreadCount` / `__muted` / `__unreadMention` (here the fields
of `s`, which are only reassigned at the end), while `peerId`,
`chatListUnreadMark()` and the message age are read fresh.  The age
comparison `messageAge <= OLD_MESSAGE` converts the signed `int` age to
`uint64` (the C++ usual arithmetic conversions), hence `toUInt64Nat`.
`lazyLoadSoftlyPinnedPeers` has already published `env.softPins`. -/
def updatePriority (env : LiveEnv) (s : EntryState) : Bool × EntryState :=
  let messageCategory := s.messageCategory
  let unreadMention := s.unreadMention
  let muted := s.muted
  let unreadCount := s.unreadCount
  let kn := env.lastMessageKnown
  let muted1 := if kn then env.histMuted else muted
  let unreadMention1 := if kn then env.histUnreadMention else unreadMention
  let unreadCount1 := if kn then env.chatListUnreadCount else unreadCount
  let messageAge : Int := wrap32 (env.now - s.timeId)
  let messageCategory1 :=
    if kn then
      if env.softPins.contains env.peerId then EntryCategory.SOFT_PINNED
      else if (decide (0 < s.unreadCount) && !s.muted) || s.unreadMention
          || env.chatListUnreadMark then EntryCategory.UNMUTED_UNREAD
      else if !s.muted && decide (s.unreadCount = 0)
          && decide (toUInt64Nat messageAge ≤ OLD_MESSAGE) then
        EntryCategory.UNMUTED_READ_YOUNG
      else if !s.muted && decide (s.unreadCount = 0)
          && decide (OLD_MESSAGE < toUInt64Nat messageAge) then
        EntryCategory.UNMUTED_READ_OLD
      else if s.muted then EntryCategory.MUTED
      else messageCategory
    else messageCategory
  let result := decide (messageCategory ≠ messageCategory1)
    || decide (unreadMention ≠ unreadMention1)
    || decide (muted ≠ muted1)
    || decide (unreadCount ≠ unreadCount1)
  (result, { s with
    messageCategory := messageCategory1
    unreadMention := unreadMention1
    muted := muted1
    unreadCount := unreadCount1
    updateNeeded := s.updateNeeded || result })

/-- Modelled from the spec: the per-mode `IndexedList`
(`dialogs_indexed_list.cpp` is not under the sources): an ordered main
sequence plus one ordered sub-sequence per first letter. -/
structure IndexedList where
  mainOrder : List Nat
  buckets : List (Nat × List Nat)
deriving DecidableEq

/-- Append `k` to the bucket of `letter`, creating the bucket if needed. -/
def bucketAdd : List (Nat × List Nat) → Nat → Nat → List (Nat × List Nat)
  | [], letter, k => [(letter, [k])]
  | (l, xs) :: rest, letter, k =>
    if l = letter then (l, xs ++ [k]) :: rest
    else (l, xs) :: bucketAdd rest letter k

/-- Modelled from the spec: `IndexedList::addToEnd` appends the entry to
the main order, registers it under its first-letter bucket, and returns
the `RowsByLetter` links (sentinel letter 0 for the main row). -/
def IndexedList.addToEnd (l : IndexedList) (letter : Nat) (k : Nat) :
    IndexedList × RowsByLetter :=
  ({ mainOrder := l.mainOrder ++ [k], buckets := bucketAdd l.buckets letter k },
   (0, k) :: (if letter = 0 then [] else [(letter, k)]))

/-- Modelled from the spec: `IndexedList::del` removes the entry from the
main order and from every letter bucket. -/
def IndexedList.del (l : IndexedList) (k : Nat) : IndexedList :=
  { mainOrder := l.mainOrder.filter (fun x => decide (x ≠ k))
    buckets := l.buckets.map (fun b => (b.1, b.2.filter (fun x => decide (x ≠ k)))) }

/-- Whether `k` is still registered anywhere in the list (main order or
any letter bucket). -/
def registered (l : IndexedList) (k : Nat) : Bool :=
  l.mainOrder.contains k || l.buckets.any (fun b => b.2.contains k)

/-- The whole mutable state a recompute can touch: the entry, the
per-mode indexed lists of the owner, the global counter
`DialogsPosToTopShift`, and the trace of events sent to collaborators. -/
structure World where
  entry : EntryState
  listAll : IndexedList
  listImportant : IndexedList
  shift : Nat
  events : List Event
deriving DecidableEq

/-- `Entry::myChatsList(list)` (dialogs_entry.cpp:357-359). -/
def myChatsList (w : World) : Mode → IndexedList
  | .All => w.listAll
  | .Important => w.listImportant

/-- Write access to the per-mode list. -/
def setChatsList (w : World) : Mode → IndexedList → World
  | .All, v => { w with listAll := v }
  | .Important, v => { w with listImportant := v }

/-- The three-way key choice of `Entry::calculateChatListSortPosition`
(dialogs_entry.cpp:145-150): fixed-on-top, else pinned, else
category-bucketed; paired with the resulting global counter. -/
def keyOf (s : EntryState) (shift : Nat) : Nat × Nat :=
  if s.fixedOnTopIndex ≠ 0 then (FixedOnTopDialogPos s.fixedOnTopIndex, shift)
  else if isPinnedDialog s then (PinnedDialogPos s.pinnedIndex.toNat, shift)
  else DialogPosFromDateAndCategory s.timeId s.messageCategory shift

mutual

/-- `Entry::calculateChatListSortPosition` (dialogs_entry.cpp:143-162).
`adjustedChatListTimeId()` is `chatListTimeId()` is `_timeId`
(dialogs_entry.cpp:255-257).  Support mode is not active. -/
def calculateChatListSortPosition :
    Nat → LiveEnv → World → Option (Bool × World)
  | 0, _, _ => none
  | fuel + 1, env, w =>
    let r := updatePriority env w.entry
    let e1 := r.2
    let p := keyOf e1 w.shift
    let e2 := { e1 with sortKeyInChatList := p.1 }
    let w2 := { w with entry := e2, shift := p.2 }
    if (lookupLetter 0 e2.linksAll).isSome && e1.updateNeeded then
      match setChatListExistence fuel env true
          { w2 with entry := { e2 with updateNeeded := false } } with
      | none => none
      | some w3 => some (r.1, w3)
    else if !env.shouldBeInChatList then
      some (r.1, { w2 with entry := { e2 with sortKeyInChatList := 0 } })
    else
      some (r.1, w2)

/-- `Entry::setChatListExistence` (dialogs_entry.cpp:244-253), with
`App::main()` present (the UI collaborator is alive). -/
def setChatListExistence : Nat → LiveEnv → Bool → World → Option World
  | 0, _, _, _ => none
  | fuel + 1, env, ex, w =>
    if ex && w.entry.sortKeyInChatList ≠ 0 then
      updateChatListEntry fuel env
        { w with events := w.events ++ [Event.refreshDialog] }
    else
      some { w with events := w.events ++ [Event.removeDialog] }

/-- `Entry::updateChatListEntry` (dialogs_entry.cpp:336-355), with
`App::main()` present and support mode off. -/
def updateChatListEntry : Nat → LiveEnv → World → Option World
  | 0, _, _ => none
  | fuel + 1, env, w =>
    match calculateChatListSortPosition fuel env w with
    | none => none
    | some r =>
      let w1 := r.2
      if inChatList w1.entry Mode.All then
        some { w1 with events := w1.events ++ [Event.repaintRow Mode.All]
          ++ (if inChatList w1.entry Mode.Important then
                [Event.repaintRow Mode.Important] else []) }
      else
        some w1

end

/-- `Entry::sortKeyInChatList` (dialogs_entry.cpp:138-141): recomputes and
returns `_sortKeyInChatList`. -/
def sortKeyInChatListF (fuel : Nat) (env : LiveEnv) (w : World) :
    Option (Nat × World) :=
  match calculateChatListSortPosition fuel env w with
  | none => none
  | some r => some (r.2.entry.sortKeyInChatList, r.2)

/-- `Entry::needUpdateInChatList` (dialogs_entry.cpp:124-126). -/
def needUpdateInChatList (env : LiveEnv) (s : EntryState) : Bool :=
  inChatList s Mode.All || env.shouldBeInChatList

/-- `Entry::updateChatListSortPosition` (dialogs_entry.cpp:128-136). -/
def updateChatListSortPosition (fuel : Nat) (env : LiveEnv) (w : World) :
    Option World :=
  match calculateChatListSortPosition fuel env w with
  | none => none
  | some r =>
    if needUpdateInChatList env r.2.entry then
      setChatListExistence fuel env true r.2
    else
      some { r.2 with entry := { r.2.entry with sortKeyInChatList := 0 } }

/-- `Entry::setChatListTimeId` (dialogs_entry.cpp:285-291).  The
timestamp is assigned unconditionally.  The trailing redirect
`folder()->updateChatListSortPosition()` acts on the folder's own entry,
outside this single-entry model. -/
def setChatListTimeId (fuel : Nat) (env : LiveEnv) (date : Int)
    (w : World) : Option World :=
  updateChatListSortPosition fuel env
    { w with entry := { w.entry with timeId := date } }

/-- `Entry::addToChatList` (dialogs_entry.cpp:297-305). -/
def addToChatList (env : LiveEnv) (m : Mode) (w : World) : World :=
  if inChatList w.entry m then w
  else
    let r := (myChatsList w m).addToEnd env.firstLetter w.entry.keyId
    let w1 := setChatsList w m r.1
    let w2 := { w1 with entry := setLinks w1.entry m r.2 }
    if m = Mode.All then
      { w2 with events := w2.events ++ [Event.unreadEntryChanged true] }
    else w2

/-- `Entry::removeFromChatList` (dialogs_entry.cpp:307-315). -/
def removeFromChatList (m : Mode) (w : World) : World :=
  if inChatList w.entry m then
    let w1 := setChatsList w m ((myChatsList w m).del w.entry.keyId)
    let w2 := { w1 with entry := setLinks w1.entry m [] }
    if m = Mode.All then
      { w2 with events := w2.events ++ [Event.unreadEntryChanged false] }
    else w2
  else w

/-- `Entry::posInChatList` (dialogs_entry.cpp:293-295): position of the
main row, `none` when the membership assertion fires. -/
def posInChatList (w : World) (m : Mode) : Option Nat :=
  match mainChatListLink w.entry m with
  | none => none
  | some r => some ((myChatsList w m).mainOrder.indexOf r)

/-- `lazyLoadSoftlyPinnedPeers` stream scan (dialogs_entry.cpp:164-184),
character level: `in >> peerId` skips whitespace then consumes a maximal
digit run, failing (and breaking the loop) when none follows. -/
def skipWs : List Char → List Char
  | [] => []
  | c :: cs => if c.isWhitespace then skipWs cs else c :: cs

/-- Maximal leading digit run and the remainder. -/
def takeDigits : List Char → List Char × List Char
  | [] => ([], [])
  | c :: cs =>
    if c.isDigit then
      let r := takeDigits cs
      (c :: r.1, r.2)
    else ([], c :: cs)

/-- Decimal value of a digit run. -/
def digitsToNat (acc : Nat) : List Char → Nat
  | [] => acc
  | c :: cs => digitsToNat (acc * 10 + (c.toNat - 48)) cs

/-- One `in >> peerId` extraction: skip whitespace, read digits;
`none` models stream failure (the loop's `break`). -/
def readPeerId (cs : List Char) : Option (Nat × List Char) :=
  let cs1 := skipWs cs
  let d := takeDigits cs1
  if d.1.isEmpty then none else some (digitsToNat 0 d.1, d.2)

/-- `in.ignore(STREAM_MAX_SIZE, '\n')`: discard up to and including the
next newline. -/
def dropLine : List Char → List Char
  | [] => []
  | c :: cs => if c = '\n' then cs else dropLine cs

/-- The `while (in.is_open()) { if (!(in >> peerId)) break; ...; }` loop
of `lazyLoadSoftlyPinnedPeers`, fuelled by the input length (each
successful extraction consumes at least one character). -/
def loadLoop : Nat → List Char → List Nat
  | 0, _ => []
  | fuel + 1, cs =>
    match readPeerId cs with
    | none => []
    | some nr => nr.1 :: loadLoop fuel (dropLine nr.2)

/-- `lazyLoadSoftlyPinnedPeers` (dialogs_entry.cpp:164-184): `none` is a
missing/unreadable file (`in.is_open()` false, loop never runs), `some`
is the file content. -/
def lazyLoadSoftlyPinnedPeers : Option (List Char) → List Nat
  | none => []
  | some cs => loadLoop (cs.length + 1) cs

/-- `soft_pinned_peers.load()->count(id) != 0`: membership query. -/
def softPinContains (pins : List Nat) (x : Nat) : Bool :=
  pins.contains x

/-- Modelled from the spec: the pure classifier of §4.2, stated on the
live values, for comparison with `updatePriority`. -/
def classifySpec (pins : List Nat) (peerId : Nat) (unreadMention : Bool)
    (unreadCount : Int) (muted : Bool) (unreadMark : Bool) (age : Int) :
    EntryCategory :=
  if pins.contains peerId then .SOFT_PINNED
  else if unreadMention || (decide (0 < unreadCount) && !muted) || unreadMark then
    .UNMUTED_UNREAD
  else if !muted && decide (unreadCount = 0) && decide (age ≤ 604800) then
    .UNMUTED_READ_YOUNG
  else if !muted && decide (unreadCount = 0) && decide (604800 < age) then
    .UNMUTED_READ_OLD
  else if muted then .MUTED
  else .BOTTOM

/-- One quiescent recompute: the entry's cached key is overwritten with
the freshly encoded key and the global counter advances; nothing else
changes.  (This is the result shape of `calculateChatListSortPosition`
when no notification branch fires.) -/
def quiescentStep (w : World) : World :=
  { w with
    entry := { w.entry with sortKeyInChatList := (keyOf w.entry w.shift).1 }
    shift := (keyOf w.entry w.shift).2 }

/-- Timestamp of a recompute result. -/
def resultTimeId (o : Option World) : Option Int :=
  o.map fun w => w.entry.timeId

/-- Event trace of a recompute result. -/
def resultEvents (o : Option World) : Option (List Event) :=
  o.map fun w => w.events

/-- Fixture: a quiescent environment (no history change pending, entry
eligible for the list). -/
def c1env : LiveEnv :=
  { lastMessageKnown := false, histMuted := false, histUnreadMention := false,
    peerId := 7, chatListUnreadCount := 0, chatListUnreadMark := false,
    now := 0, softPins := [], shouldBeInChatList := true, firstLetter := 3 }

/-- Fixture: an entry in the `All` list, category tier (not pinned, not
fixed on top), with a known timestamp and a clean update flag. -/
def c1world : World :=
  { entry :=
      { keyId := 1, timeId := 1000, pinnedIndex := 0, fixedOnTopIndex := 0,
        messageCategory := .UNMUTED_READ_YOUNG, unreadMention := false,
        muted := false, unreadCount := 0, updateNeeded := false,
        sortKeyInChatList := 0, linksAll := [(0, 1)], linksImportant := [] }
    listAll := { mainOrder := [1], buckets := [(3, [1])] }
    listImportant := { mainOrder := [], buckets := [] }
    shift := 0, events := [] }

/-- Fixture: an environment for an entry that should not be in the chat
list. -/
def c3env : LiveEnv :=
  { lastMessageKnown := false, histMuted := false, histUnreadMention := false,
    peerId := 7, chatListUnreadCount := 0, chatListUnreadMark := false,
    now := 0, softPins := [], shouldBeInChatList := false, firstLetter := 3 }

/-- Fixture: an absent entry (no links in any mode, zero sort key) with a
known current timestamp 100. -/
def c3world : World :=
  { entry :=
      { keyId := 1, timeId := 100, pinnedIndex := 0, fixedOnTopIndex := 0,
        messageCategory := .BOTTOM, unreadMention := false, muted := false,
        unreadCount := 0, updateNeeded := false, sortKeyInChatList := 0,
        linksAll := [], linksImportant := [] }
    listAll := { mainOrder := [], buckets := [] }
    listImportant := { mainOrder := [], buckets := [] }
    shift := 0, events := [] }

/-! ### Helper lemmas -/

theorem subU64_eq {c i : Nat} (hc : c < 2 ^ 64) (hi : i ≤ c) :
    (c + U64 - i % U64) % U64 = c - i := by
  have hU : U64 = 2 ^ 64 := rfl
  have hiu : i % U64 = i := by
    rw [hU]; exact Nat.mod_eq_of_lt (lt_of_le_of_lt hi hc)
  rw [hiu, hU]
  have h1 : c + 2 ^ 64 - i = 2 ^ 64 + (c - i) := by omega
  rw [h1, Nat.add_mod_left]
  exact Nat.mod_eq_of_lt (by omega)

theorem fixedPos_eq {i : Nat} (h : i ≤ 0xFFFFFFFFFFFF000F) :
    FixedOnTopDialogPos i = 0xFFFFFFFFFFFF000F - i :=
  subU64_eq (by norm_num) h

theorem pinnedPos_eq {j : Nat} (h : j ≤ 0xFFFFFFFF000000FF) :
    PinnedDialogPos j = 0xFFFFFFFF000000FF - j :=
  subU64_eq (by norm_num) h

theorem lor_lt_mul_two_pow {a b c k : Nat} (ha : a < c * 2 ^ k)
    (hb : b < 2 ^ k) : a ||| b < c * 2 ^ k := by
  have hpos : 0 < 2 ^ k := Nat.pos_pow_of_pos k (by omega)
  have hsplit : 2 ^ k * (a / 2 ^ k) + a % 2 ^ k = a := Nat.div_add_mod a (2 ^ k)
  have hr : a % 2 ^ k < 2 ^ k := Nat.mod_lt _ hpos
  have hq : a / 2 ^ k < c := (Nat.div_lt_iff_lt_mul hpos).mpr ha
  have hrb : (a % 2 ^ k) ||| b < 2 ^ k := Nat.or_lt_two_pow hr hb
  have step : a ||| b = 2 ^ k * (a / 2 ^ k) + ((a % 2 ^ k) ||| b) := by
    conv_lhs => rw [← hsplit]
    rw [Nat.mul_add_lt_is_or hr, Nat.lor_assoc, ← Nat.mul_add_lt_is_or hrb]
  rw [step]
  calc 2 ^ k * (a / 2 ^ k) + ((a % 2 ^ k) ||| b)
      < 2 ^ k * (a / 2 ^ k) + 2 ^ k := by omega
    _ = 2 ^ k * (a / 2 ^ k + 1) := by ring
    _ ≤ 2 ^ k * c := Nat.mul_le_mul_left _ (by omega)
    _ = c * 2 ^ k := Nat.mul_comm _ _

theorem catVal_le (c : EntryCategory) : c.val ≤ 14 := by
  cases c <;> simp [EntryCategory.val]

theorem catVal_ge (c : EntryCategory) : 9 ≤ c.val := by
  cases c <;> simp [EntryCategory.val]

/-! ### C7 -/

/-- C7: for `date == 0` the category-bucketed encodings
(`DialogPosFromDateAndCategory` and `DialogPosFromDate`) return key `0`,
for every category, and leave the global counter untouched. -/
theorem dialogPos_zero_date (c : EntryCategory) (sh : Nat) :
    DialogPosFromDateAndCategory 0 c sh = (0, sh) ∧
    DialogPosFromDate 0 sh = (0, sh) := by
  constructor <;> rfl

/-! ### C10 -/

/-- C10: within the reserved ranges the promoted and pinned keys are
strictly decreasing in the slot number: `i < j` implies
`FixedOnTopDialogPos i > FixedOnTopDialogPos j` and
`PinnedDialogPos i > PinnedDialogPos j`, so a smaller slot ranks
higher. -/
theorem slotKeys_strictly_decreasing (i j : Nat) (hij : i < j)
    (hj : j < 2 ^ 31) :
    FixedOnTopDialogPos j < FixedOnTopDialogPos i ∧
    PinnedDialogPos j < PinnedDialogPos i := by
  rw [fixedPos_eq (by omega), fixedPos_eq (by omega),
    pinnedPos_eq (by omega), pinnedPos_eq (by omega)]
  omega

/-- Witness for C10 at slots 1 < 2. -/
theorem slotKeys_strictly_decreasing_witness :
    ((1 : Nat) < 2 ∧ (2 : Nat) < 2 ^ 31) ∧
    (FixedOnTopDialogPos 2 < FixedOnTopDialogPos 1 ∧
      PinnedDialogPos 2 < PinnedDialogPos 1) :=
  ⟨by decide, slotKeys_strictly_decreasing 1 2 (by decide) (by decide)⟩

/-! ### C4 -/

/-- C4: tier precedence.  For every fixed-on-top slot `i` and valid
pinned slot `j` (positive, `int`-ranged), every positive 32-bit
timestamp, every category and any counter value below `2^31`, the
promoted key is strictly above every pinned key, and every pinned key is
strictly above the category-bucketed key. -/
theorem tier_precedence (i j : Nat) (date : Int) (c : EntryCategory)
    (sh : Nat) (hi1 : 1 ≤ i) (hi2 : i < 2 ^ 31) (hj1 : 1 ≤ j)
    (hj2 : j < 2 ^ 31) (hd1 : 0 < date) (hd2 : date < 2 ^ 31)
    (hsh : sh < 2 ^ 31) :
    PinnedDialogPos j < FixedOnTopDialogPos i ∧
    (DialogPosFromDateAndCategory date c sh).1 < PinnedDialogPos j := by
  have hfix := fixedPos_eq (i := i) (by omega)
  have hpin := pinnedPos_eq (j := j) (by omega)
  constructor
  · rw [hfix, hpin]; omega
  · have hdz : ¬(date = 0) := by omega
    have ht : toUInt64Nat date = date.toNat := by
      unfold toUInt64Nat
      rw [Int.emod_eq_of_lt (by omega) (by norm_num; omega)]
    have ht2 : date.toNat < 2 ^ 31 := by omega
    have hval := catVal_le c
    simp only [DialogPosFromDateAndCategory, hdz, if_false, ht,
      Nat.shiftLeft_eq]
    have hX : c.val * 2 ^ 60 + date.toNat * 2 ^ 28 < 15 * 2 ^ 60 := by
      have h28 : date.toNat * 2 ^ 28 < 2 ^ 31 * 2 ^ 28 := by
        exact Nat.mul_lt_mul_of_lt_of_le ht2 (le_refl _) (by norm_num)
      norm_num at h28 ⊢
      omega
    have hXU : (c.val * 2 ^ 60 + date.toNat * 2 ^ 28) % U64
        = c.val * 2 ^ 60 + date.toNat * 2 ^ 28 := by
      have : U64 = 2 ^ 64 := rfl
      rw [this]
      exact Nat.mod_eq_of_lt (by norm_num at hX ⊢; omega)
    have hshU : (sh + 1) % U64 = sh + 1 := by
      have : U64 = 2 ^ 64 := rfl
      rw [this]
      exact Nat.mod_eq_of_lt (by norm_num; omega)
    rw [hXU, hshU]
    have hkey : (c.val * 2 ^ 60 + date.toNat * 2 ^ 28) ||| (sh + 1)
        < 15 * 2 ^ 60 :=
      lor_lt_mul_two_pow hX (by norm_num; omega)
    rw [hpin]
    norm_num at hkey ⊢
    omega

/-- Witness for C4 at slot 1, pin 1, date 1000, category
`UNMUTED_READ_YOUNG`, counter 0. -/
theorem tier_precedence_witness :
    ((1 : Nat) ≤ 1 ∧ (1 : Nat) < 2 ^ 31 ∧ (0 : Int) < 1000 ∧
      (1000 : Int) < 2 ^ 31 ∧ (0 : Nat) < 2 ^ 31) ∧
    (PinnedDialogPos 1 < FixedOnTopDialogPos 1 ∧
      (DialogPosFromDateAndCategory 1000 EntryCategory.UNMUTED_READ_YOUNG 0).1
        < PinnedDialogPos 1) :=
  ⟨by decide,
    tier_precedence 1 1 1000 EntryCategory.UNMUTED_READ_YOUNG 0
      (by decide) (by decide) (by decide) (by decide) (by decide)
      (by decide) (by decide)⟩

/-! ### C5 -/

/-- C5: soft-pin parsing.  The file content `"100\n200 ignored text\n"`
yields a set containing 100 and 200 but not 300 (trailing text after the
number is ignored); a line starting with an unparsable token stops the
scan without error (`"100\nabc\n300\n"` yields just `[100]`); and a
missing or unreadable file yields the empty set, so `contains` is false
for every id. -/
theorem softPin_parsing :
    softPinContains
        (lazyLoadSoftlyPinnedPeers (some ("100\n200 ignored text\n".toList)))
        100 = true ∧
    softPinContains
        (lazyLoadSoftlyPinnedPeers (some ("100\n200 ignored text\n".toList)))
        200 = true ∧
    softPinContains
        (lazyLoadSoftlyPinnedPeers (some ("100\n200 ignored text\n".toList)))
        300 = false ∧
    lazyLoadSoftlyPinnedPeers (some ("100\nabc\n300\n".toList)) = [100] ∧
    lazyLoadSoftlyPinnedPeers none = [] ∧
    ∀ x : Nat, softPinContains (lazyLoadSoftlyPinnedPeers none) x = false := by
  refine ⟨by decide, by decide, by decide, by decide, rfl, ?_⟩
  intro x
  rfl

/-! ### C2 -/

/-- C2 (code bug): the classification cascade of `Entry::updatePriority`
tests the previously cached members `__unreadCount` / `__muted` /
`__unreadMention` instead of the freshly read live values (which the
function reads into locals a few lines above and then only uses for
change detection).  At an entry whose cached unread count is 0 while the
live unread count is 5 (unmuted, no mention, no mark, age 100s, not
soft-pinned), the code classifies `UNMUTED_READ_YOUNG`, while the spec's
cascade over the current live state gives `UNMUTED_UNREAD`.  The same
call stores the live count 5 into the cache, so the category lags one
call behind the state. -/
theorem updatePriority_stale_cascade :
    (updatePriority
      { lastMessageKnown := true, histMuted := false,
        histUnreadMention := false, peerId := 7, chatListUnreadCount := 5,
        chatListUnreadMark := false, now := 1100, softPins := [],
        shouldBeInChatList := true, firstLetter := 3 }
      { keyId := 1, timeId := 1000, pinnedIndex := 0, fixedOnTopIndex := 0,
        messageCategory := .BOTTOM, unreadMention := false, muted := false,
        unreadCount := 0, updateNeeded := false, sortKeyInChatList := 0,
        linksAll := [(0, 1)], linksImportant := [] }).2.messageCategory
      = EntryCategory.UNMUTED_READ_YOUNG ∧
    (updatePriority
      { lastMessageKnown := true, histMuted := false,
        histUnreadMention := false, peerId := 7, chatListUnreadCount := 5,
        chatListUnreadMark := false, now := 1100, softPins := [],
        shouldBeInChatList := true, firstLetter := 3 }
      { keyId := 1, timeId := 1000, pinnedIndex := 0, fixedOnTopIndex := 0,
        messageCategory := .BOTTOM, unreadMention := false, muted := false,
        unreadCount := 0, updateNeeded := false, sortKeyInChatList := 0,
        linksAll := [(0, 1)], linksImportant := [] }).2.unreadCount = 5 ∧
    classifySpec [] 7 false 5 false false 100 =
      EntryCategory.UNMUTED_UNREAD := by
  refine ⟨by decide, by decide, by decide⟩

/-! ### Recompute infrastructure lemmas -/

theorem updatePriority_sortKey (env : LiveEnv) (s : EntryState) (k : Nat) :
    updatePriority env { s with sortKeyInChatList := k } =
      ((updatePriority env s).1,
        { (updatePriority env s).2 with sortKeyInChatList := k }) := rfl

theorem updatePriority_timeId (env : LiveEnv) (s : EntryState) :
    ((updatePriority env s).2).timeId = s.timeId := rfl

theorem updatePriority_linksAll (env : LiveEnv) (s : EntryState) :
    ((updatePriority env s).2).linksAll = s.linksAll := rfl

theorem updatePriority_linksImportant (env : LiveEnv) (s : EntryState) :
    ((updatePriority env s).2).linksImportant = s.linksImportant := rfl

/-- A quiescent recompute (no pending cached-state change, no pending
update flag, entry eligible) takes the silent branch: it stores the
fresh key, advances the counter, and emits nothing. -/
theorem calc_quiescent (n : Nat) (env : LiveEnv) (w : World)
    (hq : updatePriority env w.entry = (false, w.entry))
    (hu : w.entry.updateNeeded = false)
    (hs : env.shouldBeInChatList = true) :
    calculateChatListSortPosition (n + 1) env w
      = some (false, quiescentStep w) := by
  simp only [calculateChatListSortPosition, hq, hu, hs, Bool.and_false,
    Bool.not_true, Bool.false_eq_true, if_false, quiescentStep]

/-- Two successive category-tier encodings of the same date and category
share the high 36 bits and carry successive disambiguators. -/
theorem dialogPos_succ_pair (t : Int) (c : EntryCategory) (sh : Nat)
    (ht : ¬(t = 0)) (hsh : sh + 2 < 2 ^ 28) :
    ∃ q, (DialogPosFromDateAndCategory t c sh).1 = 2 ^ 28 * q + (sh + 1) ∧
      (DialogPosFromDateAndCategory t c sh).2 = sh + 1 ∧
      (DialogPosFromDateAndCategory t c (sh + 1)).1 = 2 ^ 28 * q + (sh + 2) := by
  refine ⟨(c.val * 2 ^ 32 + toUInt64Nat t) % 2 ^ 36, ?_, ?_, ?_⟩
  · simp only [DialogPosFromDateAndCategory, ht, if_false, Nat.shiftLeft_eq]
    have hX : c.val * 2 ^ 60 + toUInt64Nat t * 2 ^ 28
        = 2 ^ 28 * (c.val * 2 ^ 32 + toUInt64Nat t) := by ring
    have hU : U64 = 2 ^ 28 * 2 ^ 36 := by norm_num [U64]
    have hmod : (sh + 1) % U64 = sh + 1 := by
      simp only [U64]; exact Nat.mod_eq_of_lt (by norm_num; omega)
    rw [hX, hU, Nat.mul_mod_mul_left, ← hU, hmod,
      ← Nat.mul_add_lt_is_or (by omega)]
  · simp only [DialogPosFromDateAndCategory, ht, if_false]
  · simp only [DialogPosFromDateAndCategory, ht, if_false, Nat.shiftLeft_eq]
    have hX : c.val * 2 ^ 60 + toUInt64Nat t * 2 ^ 28
        = 2 ^ 28 * (c.val * 2 ^ 32 + toUInt64Nat t) := by ring
    have hU : U64 = 2 ^ 28 * 2 ^ 36 := by norm_num [U64]
    have hmod : (sh + 1 + 1) % U64 = sh + 2 := by
      simp only [U64]; exact Nat.mod_eq_of_lt (by norm_num; omega)
    rw [hX, hU, Nat.mul_mod_mul_left, ← hU, hmod,
      ← Nat.mul_add_lt_is_or (by omega)]

/-! ### C1 -/

/-- C1 counterexample: at a concrete category-tier entry in the `All`
list, quiescent (no state change at all between the calls), two
consecutive `sortKeyInChatList()` calls return DIFFERENT 64-bit values:
the global counter `DialogsPosToTopShift` is incremented inside
`DialogPosFromDateAndCategory` on every recompute, so the low 28
disambiguator bits change from 1 to 2.  This refutes the claim that the
two values are identical. -/
theorem sortKey_not_idempotent_cex :
    sortKeyInChatListF 5 c1env c1world
      = some (13835058323717619713, quiescentStep c1world) ∧
    sortKeyInChatListF 5 c1env (quiescentStep c1world)
      = some (13835058323717619714, quiescentStep (quiescentStep c1world)) ∧
    (13835058323717619713 : Nat) ≠ 13835058323717619714 :=
  ⟨by decide, by decide, by decide⟩

/-- C1 (amended): for every quiescent entry (no cached-state change
pending, update flag clear, entry eligible), two consecutive
`sortKeyInChatList()` calls both succeed, fire no existence/added/removed
events (the event trace is unchanged by either call), and return keys
that are either identical (promoted, pinned, or zero-date entries) or —
in the category tier — identical in everything but the low 28-bit
monotonic disambiguator, which the second call increments by one (so the
high tier/category/timestamp bits `k / 2^28` agree). -/
theorem sortKey_repeat (n : Nat) (env : LiveEnv) (w : World)
    (hq : updatePriority env w.entry = (false, w.entry))
    (hu : w.entry.updateNeeded = false)
    (hs : env.shouldBeInChatList = true)
    (hsh : w.shift + 2 < 2 ^ 28) :
    ∃ k1 w1 k2 w2,
      sortKeyInChatListF (n + 1) env w = some (k1, w1) ∧
      sortKeyInChatListF (n + 1) env w1 = some (k2, w2) ∧
      w1.events = w.events ∧ w2.events = w.events ∧
      ((w.entry.fixedOnTopIndex ≠ 0 ∨ isPinnedDialog w.entry = true ∨
          w.entry.timeId = 0) → k1 = k2) ∧
      ((w.entry.fixedOnTopIndex = 0 ∧ isPinnedDialog w.entry = false ∧
          w.entry.timeId ≠ 0) →
        k1 ≠ k2 ∧ k2 = k1 + 1 ∧ k1 / 2 ^ 28 = k2 / 2 ^ 28) := by
  have h1 := calc_quiescent n env w hq hu hs
  have hq1 : updatePriority env (quiescentStep w).entry
      = (false, (quiescentStep w).entry) := by
    show updatePriority env { w.entry with sortKeyInChatList := _ } = _
    rw [updatePriority_sortKey, hq]
    rfl
  have hu1 : (quiescentStep w).entry.updateNeeded = false := hu
  have h2 := calc_quiescent n env (quiescentStep w) hq1 hu1 hs
  refine ⟨(keyOf w.entry w.shift).1, quiescentStep w,
    (keyOf w.entry (keyOf w.entry w.shift).2).1,
    quiescentStep (quiescentStep w), ?_, ?_, rfl, rfl, ?_, ?_⟩
  · simp only [sortKeyInChatListF, h1]
    rfl
  · simp only [sortKeyInChatListF, h2]
    rfl
  · intro h
    by_cases hf : w.entry.fixedOnTopIndex = 0
    · by_cases hp : isPinnedDialog w.entry = true
      · simp [keyOf, hf, hp]
      · have htz : w.entry.timeId = 0 := by
          rcases h with h | h | h
          · exact absurd hf h
          · exact absurd h hp
          · exact h
        simp [keyOf, hf, hp, htz, DialogPosFromDateAndCategory]
    · simp [keyOf, hf]
  · rintro ⟨hf, hp, htz⟩
    obtain ⟨q, e1, e2, e3⟩ :=
      dialogPos_succ_pair w.entry.timeId w.entry.messageCategory
        w.shift htz hsh
    have hkeyOf : keyOf w.entry = fun sh =>
        DialogPosFromDateAndCategory w.entry.timeId
          w.entry.messageCategory sh := by
      funext sh
      simp [keyOf, hf, hp]
    rw [hkeyOf]
    simp only []
    rw [e2, e1, e3]
    omega

/-- Witness for C1 (amended) at the quiescent fixture. -/
theorem sortKey_repeat_witness :
    (updatePriority c1env c1world.entry = (false, c1world.entry) ∧
      c1world.entry.updateNeeded = false ∧
      c1env.shouldBeInChatList = true ∧ c1world.shift + 2 < 2 ^ 28) ∧
    (∃ k1 w1 k2 w2,
      sortKeyInChatListF (4 + 1) c1env c1world = some (k1, w1) ∧
      sortKeyInChatListF (4 + 1) c1env w1 = some (k2, w2) ∧
      w1.events = c1world.events ∧ w2.events = c1world.events ∧
      ((c1world.entry.fixedOnTopIndex ≠ 0 ∨
          isPinnedDialog c1world.entry = true ∨
          c1world.entry.timeId = 0) → k1 = k2) ∧
      ((c1world.entry.fixedOnTopIndex = 0 ∧
          isPinnedDialog c1world.entry = false ∧
          c1world.entry.timeId ≠ 0) →
        k1 ≠ k2 ∧ k2 = k1 + 1 ∧ k1 / 2 ^ 28 = k2 / 2 ^ 28)) :=
  ⟨by decide,
    sortKey_repeat 4 c1env c1world (by decide) (by decide) (by decide)
      (by decide)⟩

/-! ### C3 -/

/-- Every function of the recompute cycle preserves the entry's
timestamp. -/
theorem timeId_preserved (fuel : Nat) :
    (∀ env w r, calculateChatListSortPosition fuel env w = some r →
      r.2.entry.timeId = w.entry.timeId) ∧
    (∀ env b w w2, setChatListExistence fuel env b w = some w2 →
      w2.entry.timeId = w.entry.timeId) ∧
    (∀ env w w2, updateChatListEntry fuel env w = some w2 →
      w2.entry.timeId = w.entry.timeId) := by
  induction fuel with
  | zero =>
    refine ⟨?_, ?_, ?_⟩
    · intro env w r h
      exact absurd h (by simp [calculateChatListSortPosition])
    · intro env b w w2 h
      exact absurd h (by simp [setChatListExistence])
    · intro env w w2 h
      exact absurd h (by simp [updateChatListEntry])
  | succ n ih =>
    obtain ⟨ihc, ihs, ihu⟩ := ih
    refine ⟨?_, ?_, ?_⟩
    · intro env w r h
      simp only [calculateChatListSortPosition] at h
      split at h
      · split at h
        · exact absurd h (by simp)
        · rename_i w3 heq
          obtain rfl : r = (_, w3) := (Option.some_inj.mp h).symm
          have := ihs env true _ w3 heq
          exact this
      · split at h
        · obtain rfl : r = _ := (Option.some_inj.mp h).symm
          rfl
        · obtain rfl : r = _ := (Option.some_inj.mp h).symm
          rfl
    · intro env b w w2 h
      simp only [setChatListExistence] at h
      split at h
      · have := ihu env _ w2 h
        exact this
      · obtain rfl : w2 = _ := (Option.some_inj.mp h).symm
        rfl
    · intro env w w2 h
      simp only [updateChatListEntry] at h
      split at h
      · exact absurd h (by simp)
      · rename_i r1 heq
        have hc := ihc env w r1 heq
        split at h <;>
          exact (Option.some_inj.mp h) ▸ hc

/-- C3 counterexample: at a concrete entry that is NOT a list member
(`linksAll = []`, not eligible) and whose current timestamp is 100, the
call `setChatListTimeId(50)` — not strictly newer — succeeds and leaves
the timestamp at 50, not 100: the source assigns `_timeId = date`
unconditionally, so the claimed "silently dropped" staleness guard does
not exist.  (No events fire and the entry stays absent.) -/
theorem setChatListTimeId_stale_cex :
    c3world.entry.timeId = 100 ∧
    inChatList c3world.entry Mode.All = false ∧
    c3env.shouldBeInChatList = false ∧
    resultTimeId (setChatListTimeId 5 c3env 50 c3world) = some 50 ∧
    resultEvents (setChatListTimeId 5 c3env 50 c3world) = some [] ∧
    (50 : Int) ≠ 100 :=
  ⟨by decide, by decide, by decide, by decide, by decide, by decide⟩

/-- C3 (amended): `setChatListTimeId(date)` always assigns the new
timestamp — member or not, newer or not.  For an absent, non-eligible
entry the call still changes the timestamp, but fires no events, touches
no membership links, and leaves the sort key 0, so a stale update cannot
resurrect the entry even though it is not dropped. -/
theorem setChatListTimeId_unconditional :
    (∀ fuel env date w w2, setChatListTimeId fuel env date w = some w2 →
      w2.entry.timeId = date) ∧
    (∀ n env date w, w.entry.linksAll = [] →
      env.shouldBeInChatList = false →
      ∃ w2, setChatListTimeId (n + 1) env date w = some w2 ∧
        w2.entry.timeId = date ∧
        w2.entry.linksAll = [] ∧
        w2.entry.linksImportant = w.entry.linksImportant ∧
        w2.events = w.events ∧
        w2.entry.sortKeyInChatList = 0) := by
  constructor
  · intro fuel env date w w2 h
    simp only [setChatListTimeId, updateChatListSortPosition] at h
    split at h
    · exact absurd h (by simp)
    · rename_i r heq
      have hc := (timeId_preserved fuel).1 env _ r heq
      split at h
      · have hs := (timeId_preserved fuel).2.1 env true _ w2 h
        rw [hs, hc]
      · obtain rfl : w2 = _ := (Option.some_inj.mp h).symm
        simpa using hc
  · intro n env date w hL hS
    simp only [setChatListTimeId, updateChatListSortPosition,
      calculateChatListSortPosition, updatePriority_linksAll, hL, hS,
      lookupLetter, Option.isSome_none, Bool.false_and, if_false,
      Bool.not_false, if_true, needUpdateInChatList, inChatList,
      chatListLinks, List.isEmpty_nil, Bool.not_true, Bool.or_self,
      Bool.false_eq_true, updatePriority_timeId,
      updatePriority_linksImportant]
    exact ⟨_, rfl, rfl, rfl, rfl, rfl, rfl⟩

/-- Witness for C3 (amended) at the absent fixture with a stale date. -/
theorem setChatListTimeId_unconditional_witness :
    (c3world.entry.linksAll = [] ∧ c3env.shouldBeInChatList = false) ∧
    (∃ w2, setChatListTimeId (4 + 1) c3env 50 c3world = some w2 ∧
      w2.entry.timeId = 50 ∧
      w2.entry.linksAll = [] ∧
      w2.entry.linksImportant = c3world.entry.linksImportant ∧
      w2.events = c3world.events ∧
      w2.entry.sortKeyInChatList = 0) :=
  ⟨by decide,
    setChatListTimeId_unconditional.2 4 c3env 50 c3world (by decide)
      (by decide)⟩

/-! ### C6 -/

/-- `del` removes every registration of the key. -/
theorem del_unregisters (l : IndexedList) (k : Nat) :
    registered (IndexedList.del l k) k = false := by
  simp [registered, IndexedList.del, List.mem_filter]

/-- C6: for an entry in the pre-add state (zero key, no membership in
any mode, not registered in any list), `addToChatList` followed by
`removeFromChatList` in any mode returns it to exactly that state: zero
sort key, no membership, no main-order or letter-bucket registrations;
and the invariant "zero key iff no live row" holds after the pair. -/
theorem addRemove_roundTrip (env : LiveEnv) (m : Mode) (w : World)
    (h0 : w.entry.sortKeyInChatList = 0)
    (hA : w.entry.linksAll = []) (hI : w.entry.linksImportant = [])
    (hrA : registered w.listAll w.entry.keyId = false)
    (hrI : registered w.listImportant w.entry.keyId = false) :
    (removeFromChatList m (addToChatList env m w)).entry.sortKeyInChatList = 0 ∧
    inChatList (removeFromChatList m (addToChatList env m w)).entry m = false ∧
    (removeFromChatList m (addToChatList env m w)).entry.linksAll = [] ∧
    (removeFromChatList m (addToChatList env m w)).entry.linksImportant = [] ∧
    registered (removeFromChatList m (addToChatList env m w)).listAll
      w.entry.keyId = false ∧
    registered (removeFromChatList m (addToChatList env m w)).listImportant
      w.entry.keyId = false ∧
    ((removeFromChatList m (addToChatList env m w)).entry.sortKeyInChatList = 0 ↔
      ((removeFromChatList m (addToChatList env m w)).entry.linksAll = [] ∧
        (removeFromChatList m (addToChatList env m w)).entry.linksImportant
          = [])) := by
  cases m <;>
    simp [addToChatList, removeFromChatList, inChatList, chatListLinks,
      setLinks, setChatsList, myChatsList, IndexedList.addToEnd, hA, hI, h0,
      hrA, hrI, del_unregisters]

/-- Witness for C6 at the fresh fixture, mode `All`. -/
theorem addRemove_roundTrip_witness :
    (c3world.entry.sortKeyInChatList = 0 ∧ c3world.entry.linksAll = [] ∧
      c3world.entry.linksImportant = [] ∧
      registered c3world.listAll c3world.entry.keyId = false ∧
      registered c3world.listImportant c3world.entry.keyId = false) ∧
    ((removeFromChatList Mode.All
        (addToChatList c3env Mode.All c3world)).entry.sortKeyInChatList = 0 ∧
      inChatList (removeFromChatList Mode.All
        (addToChatList c3env Mode.All c3world)).entry Mode.All = false ∧
      (removeFromChatList Mode.All
        (addToChatList c3env Mode.All c3world)).entry.linksAll = [] ∧
      (removeFromChatList Mode.All
        (addToChatList c3env Mode.All c3world)).entry.linksImportant = [] ∧
      registered (removeFromChatList Mode.All
        (addToChatList c3env Mode.All c3world)).listAll
        c3world.entry.keyId = false ∧
      registered (removeFromChatList Mode.All
        (addToChatList c3env Mode.All c3world)).listImportant
        c3world.entry.keyId = false ∧
      ((removeFromChatList Mode.All
          (addToChatList c3env Mode.All c3world)).entry.sortKeyInChatList = 0 ↔
        ((removeFromChatList Mode.All
            (addToChatList c3env Mode.All c3world)).entry.linksAll = [] ∧
          (removeFromChatList Mode.All
            (addToChatList c3env Mode.All c3world)).entry.linksImportant
            = []))) :=
  ⟨by decide,
    addRemove_roundTrip c3env Mode.All c3world (by decide) (by decide)
      (by decide) (by decide) (by decide)⟩

/-! ### C8 -/

/-- C8 counterexample: at a concrete entry absent from the `Important`
list, `addToChatList(Important)` performs the ABSENT-to-PRESENT
transition but fires ZERO notifications (the event trace stays empty):
`owner().unreadEntryChanged` is only invoked when `list == Mode::All`.
This refutes "fires the added notification exactly once per
ABSENT-to-PRESENT transition" for the `Important` mode. -/
theorem addToChatList_silent_transition_cex :
    inChatList c3world.entry Mode.Important = false ∧
    inChatList (addToChatList c3env Mode.Important c3world).entry
      Mode.Important = true ∧
    c3world.events = [] ∧
    (addToChatList c3env Mode.Important c3world).events = [] :=
  ⟨by decide, by decide, by decide, by decide⟩

/-- C8 (amended): per entry and mode, membership is a two-state machine
with idempotent no-ops: adding when absent creates membership, adding
when present is the identity, removing when present clears membership,
removing when absent is the identity.  The added/removed notification
(`unreadEntryChanged true/false`) fires exactly once per transition when
the mode is `All`, and never in other modes. -/
theorem membership_machine (env : LiveEnv) (m : Mode) (w : World) :
    (inChatList w.entry m = false →
      inChatList (addToChatList env m w).entry m = true ∧
      (addToChatList env m w).events = w.events
        ++ (if m = Mode.All then [Event.unreadEntryChanged true] else [])) ∧
    (inChatList w.entry m = true → addToChatList env m w = w) ∧
    (inChatList w.entry m = true →
      inChatList (removeFromChatList m w).entry m = false ∧
      (removeFromChatList m w).events = w.events
        ++ (if m = Mode.All then [Event.unreadEntryChanged false] else [])) ∧
    (inChatList w.entry m = false → removeFromChatList m w = w) := by
  refine ⟨?_, ?_, ?_, ?_⟩ <;> intro h <;> cases m <;>
    simp_all [addToChatList, removeFromChatList, inChatList, chatListLinks,
      setLinks, setChatsList, myChatsList, IndexedList.addToEnd]

/-- Witness for C8 (amended): an ABSENT-to-PRESENT transition in mode
`All` fires the added notification exactly once. -/
theorem membership_machine_witness :
    (inChatList c3world.entry Mode.All = false) ∧
    (inChatList (addToChatList c3env Mode.All c3world).entry Mode.All = true ∧
      (addToChatList c3env Mode.All c3world).events = c3world.events
        ++ (if Mode.All = Mode.All then [Event.unreadEntryChanged true]
            else [])) :=
  ⟨by decide, (membership_machine c3env Mode.All c3world).1 (by decide)⟩

/-! ### C9 -/

/-- C9: querying the main row of an entry not in the given list fails
the membership assertion (modelled as `none`, for `mainChatListLink` and
hence `posInChatList`); once the entry is a member (here: right after
`addToChatList` from an absent state), the assertion branch is
unreachable and a valid row is returned. -/
theorem mainChatListLink_contract (env : LiveEnv) (m : Mode) (w : World) :
    (inChatList w.entry m = false →
      mainChatListLink w.entry m = none ∧ posInChatList w m = none) ∧
    (inChatList w.entry m = false →
      (mainChatListLink (addToChatList env m w).entry m).isSome = true) := by
  constructor <;> intro h <;> cases m <;>
    simp_all [mainChatListLink, posInChatList, inChatList, chatListLinks,
      addToChatList, setLinks, setChatsList, myChatsList,
      IndexedList.addToEnd, lookupLetter]

/-- Witness for C9 at the absent fixture, mode `All`. -/
theorem mainChatListLink_contract_witness :
    (inChatList c3world.entry Mode.All = false) ∧
    ((mainChatListLink c3world.entry Mode.All = none ∧
        posInChatList c3world Mode.All = none) ∧
      (mainChatListLink (addToChatList c3env Mode.All c3world).entry
        Mode.All).isSome = true) :=
  ⟨by decide,
    ⟨(mainChatListLink_contract c3env Mode.All c3world).1 (by decide),
      (mainChatListLink_contract c3env Mode.All c3world).2 (by decide)⟩⟩

end Dialogs
